import Mathlib

/-!
Verification of the keyword-batched search-and-classify pipeline.

This file gives a shallow embedding of the three source modules:

* `analyzer.py`  — `TwitterSearcher` (query building, paginated search,
  keyword matching, normalization, user validation);
* `extractor.py` — `ControversyAnalyzer.analyze_controversy` (classifier
  client: fence stripping, JSON-shape defaulting, retry on rate limit);
* `main.py`      — `analyze_profile` (aggregator: batch search with
  per-keyword fallback, dedup-before-classify, result rows, report).

External services (the search endpoint, the text-generation endpoint, the
stdlib JSON decoder) are modelled as oracles: network traffic is a list of
responses consumed one per issued request, and `json.loads` is an arbitrary
function `String → Option JVal` where `none` stands for a raised
`JSONDecodeError`.  Python `str.lower` is modelled as a character-wise
lower-casing (`pyLower`), `in` on strings as substring scan (`subScan`),
and Python truthiness on decoded JSON values as `truthy`.  The prompt text
sent to the classifier and all console printing are not modelled: no claim
depends on them.  `time.sleep(60)` calls are modelled by an accumulated
count of slept seconds in the results of the stateful operations.
-/

/-- The single-quote character U+0027, one of the characters the query
builder treats as special (written via its code point). -/
def squote : Char := Char.ofNat 39

/-- Python `str.lower` modelled character-wise (ASCII case folding). -/
def pyLower (s : String) : String := ⟨s.toList.map Char.toLower⟩

/-- Scan for `needle` as a contiguous substring, the semantics of the
Python expression `needle in hay` on strings, on exploded character
lists. -/
def subScan (needle : List Char) : List Char → Bool
  | [] => needle.isEmpty
  | c :: rest => needle.isPrefixOf (c :: rest) || subScan needle rest

/-- Python `needle in hay` for strings. -/
def strContainsSub (hay needle : String) : Bool :=
  subScan needle.toList hay.toList

/-! ## Data model: raw and normalized tweets (`analyzer.py`) -/

/-- The four engagement counts the normalizer extracts when a
`public_metrics` object is present (dict built at `analyzer.py` lines
38-43 and duplicates). -/
structure Metrics where
  like_count : Int
  retweet_count : Int
  reply_count : Int
  quote_count : Int
deriving DecidableEq

/-- A raw `public_metrics` object as delivered by the search endpoint;
`none` in a field models an absent attribute, so that Python
`getattr(pm, field, 0)` yields the default 0. -/
structure RawMetrics where
  like_count : Option Int
  retweet_count : Option Int
  reply_count : Option Int
  quote_count : Option Int
deriving DecidableEq

/-- A raw record from the search endpoint.  `created_at` is already the
ISO rendering (`isoformat` is modelled as the identity on the rendered
string); `public_metrics = none` models a falsy (absent) metrics
object, the `if tweet.public_metrics:` guard. -/
structure RawTweet where
  id : Nat
  text : String
  created_at : Option String
  public_metrics : Option RawMetrics
deriving DecidableEq

/-- A normalized item from `search_tweets_by_keyword` (`analyzer.py`
lines 45-51): carries the single searched keyword. -/
structure KwItem where
  id : Nat
  text : String
  created_at : Option String
  public_metrics : Option Metrics
  keyword : String
deriving DecidableEq

/-- A normalized item from `search_tweets_by_keywords_batch`
(`analyzer.py` lines 172-178): carries the matched-keyword list. -/
structure BTweet where
  id : Nat
  text : String
  created_at : Option String
  public_metrics : Option Metrics
  matched_keywords : List String
deriving DecidableEq

/-- Metrics normalization shared by both search operations:
`metrics = {}` then, if the raw object is truthy, the four
`getattr(..., 0)` extractions. -/
def normalizeMetrics : Option RawMetrics → Option Metrics
  | some m =>
      some ⟨m.like_count.getD 0, m.retweet_count.getD 0,
            m.reply_count.getD 0, m.quote_count.getD 0⟩
  | none => none

/-- Row normalization in `search_tweets_by_keyword` (lines 45-51). -/
def normalizeKwTweet (keyword : String) (t : RawTweet) : KwItem :=
  ⟨t.id, t.text, t.created_at, normalizeMetrics t.public_metrics, keyword⟩

/-! ## Keyword matcher (`analyzer.py` lines 155-160) -/

/-- The matched-keyword computation: for each keyword of the list, in
order, keep it when its lower-casing occurs in the lower-cased tweet
text. -/
def matchKeywords (text : String) : List String → List String
  | [] => []
  | kw :: rest =>
      if strContainsSub (pyLower text) (pyLower kw) then
        kw :: matchKeywords text rest
      else
        matchKeywords text rest

/-- Row normalization in `search_tweets_by_keywords_batch`
(lines 153-178), attaching the matched-keyword list. -/
def normalizeBatchTweet (keywords : List String) (t : RawTweet) : BTweet :=
  ⟨t.id, t.text, t.created_at, normalizeMetrics t.public_metrics,
   matchKeywords t.text keywords⟩

/-! ## Query builder (`analyzer.py` lines 124-137) -/

/-- The quoting test: `' ' in keyword or any(char in keyword for char in
['"', "'", '(', ')'])`. -/
def hasSpecialChars (kw : String) : Bool :=
  kw.contains ' ' || ['"', squote, '(', ')'].any (fun c => kw.contains c)

/-- The `escaped_keywords` accumulation loop (lines 126-133). -/
def escapeKeywords : List String → List String
  | [] => []
  | kw :: rest =>
      (if hasSpecialChars kw then "\"" ++ kw ++ "\"" else kw)
        :: escapeKeywords rest

/-- The batch query string (lines 136-137):
`from:<username> (<keywords joined by " OR ">)`. -/
def buildBatchQuery (username : String) (keywords : List String) : String :=
  "from:" ++ username ++ " (" ++ String.intercalate " OR " (escapeKeywords keywords) ++ ")"

/-- The single-keyword query string (`analyzer.py` line 21):
`from:<username> <keyword>`, with no quoting. -/
def buildSingleQuery (username keyword : String) : String :=
  "from:" ++ username ++ " " ++ keyword

/-! ## Paginated search client (`analyzer.py`) -/

/-- Response metadata: continuation token and remaining quota.  A falsy
`response.meta` (absent or empty) is modelled as `none` at the use
sites. -/
structure PageMeta where
  next_token : Option String
  remaining : Option Nat
deriving DecidableEq

/-- One network response to a search request, as observed by the client:
a data page with metadata, or one of the exception classes the code
distinguishes (`tweepy.TooManyRequests`, `tweepy.NotFound`,
`tweepy.BadRequest`, anything else). -/
inductive SearchResp where
  | page (data : List RawTweet) (meta : Option PageMeta)
  | tooManyRequests
  | notFound
  | badRequest
  | otherError (msg : String)
deriving DecidableEq

/-- Outcome of a search operation: the returned item list together with
the number of issued requests and the total seconds slept; `oracleDry`
is a model artifact (the finite response oracle was exhausted while the
loop still wanted to issue a request); `raisedBadRequest` models the
re-raised `tweepy.BadRequest` of the batch path. -/
inductive SearchResult (α : Type) where
  | ok (items : α) (requests : Nat) (sleptSeconds : Nat)
  | oracleDry
  | raisedBadRequest
deriving DecidableEq

/-- `response.meta.get('next_token') if response.meta else None`. -/
def metaNextToken : Option PageMeta → Option String
  | some m => m.next_token
  | none => none

/-- Seconds slept by the in-loop quota check
`if response.meta and response.meta.get('remaining', 0) == 0`. -/
def metaSleep : Option PageMeta → Nat
  | some m => if m.remaining.getD 0 = 0 then 60 else 0
  | none => 0

/-- The `while next_token:` pagination loop shared (textually duplicated)
by both search operations, parameterized by the per-tweet normalizer.
Each oracle entry is the response to one issued request.  A page is
accumulated, the token updated and the quota check applied; a
`TooManyRequests` sleeps 60 seconds and retries the same token; any
other exception breaks the loop, returning the accumulated items. -/
def paginate (norm : RawTweet → α) :
    Option String → List SearchResp → List α → Nat → Nat → SearchResult (List α)
  | none, _, acc, reqs, slept => .ok acc reqs slept
  | some _, [], _, _, _ => .oracleDry
  | some tok, r :: rest, acc, reqs, slept =>
      match r with
      | .page data meta =>
          paginate norm (metaNextToken meta) rest
            (acc ++ data.map norm) (reqs + 1) (slept + metaSleep meta)
      | .tooManyRequests => paginate norm (some tok) rest acc (reqs + 1) (slept + 60)
      | _ => .ok acc (reqs + 1) slept

/-- `search_tweets_by_keyword` (`analyzer.py` lines 10-107).  The initial
request is issued first; on `TooManyRequests` the outer handler sleeps
60 seconds and returns the (empty) accumulated list; `NotFound`,
`BadRequest` and any other exception likewise fall to handlers that
return the accumulated list. -/
def search_tweets_by_keyword (username keyword : String)
    (oracle : List SearchResp) : SearchResult (List KwItem) :=
  match buildSingleQuery username keyword, oracle with
  | _, [] => .oracleDry
  | _, r :: rest =>
      match r with
      | .page data meta =>
          paginate (normalizeKwTweet keyword) (metaNextToken meta) rest
            (data.map (normalizeKwTweet keyword)) 1 0
      | .tooManyRequests => .ok [] 1 60
      | .notFound => .ok [] 1 0
      | .badRequest => .ok [] 1 0
      | .otherError _ => .ok [] 1 0

/-- `search_tweets_by_keywords_batch` (`analyzer.py` lines 109-245).
Identical control flow, except that the initial request builds the batch
query and a `tweepy.BadRequest` from the initial request is re-raised
(line 239) to signal the per-keyword fallback. -/
def search_tweets_by_keywords_batch (username : String) (keywords : List String)
    (oracle : List SearchResp) : SearchResult (List BTweet) :=
  match buildBatchQuery username keywords, oracle with
  | _, [] => .oracleDry
  | _, r :: rest =>
      match r with
      | .page data meta =>
          paginate (normalizeBatchTweet keywords) (metaNextToken meta) rest
            (data.map (normalizeBatchTweet keywords)) 1 0
      | .tooManyRequests => .ok [] 1 60
      | .notFound => .ok [] 1 0
      | .badRequest => .raisedBadRequest
      | .otherError _ => .ok [] 1 0

/-! ## Classifier client (`extractor.py`) -/

/-- Decoded JSON values, the codomain of the `json.loads` oracle. -/
inductive JVal where
  | jnull
  | jbool (b : Bool)
  | jnum (n : Int)
  | jstr (s : String)
  | jarr (elems : List JVal)
  | jobj (fields : List (String × JVal))

/-- Python truthiness of a decoded JSON value, used by the aggregator
condition `if analysis['is_controversial']:`. -/
def truthy : JVal → Bool
  | .jnull => false
  | .jbool b => b
  | .jnum n => n != 0
  | .jstr s => !s.isEmpty
  | .jarr l => !l.isEmpty
  | .jobj l => !l.isEmpty

/-- Python type name of a decoded JSON value (for the message of the
`AttributeError` raised by `result.get` on a non-dict). -/
def jtypeName : JVal → String
  | .jnull => "NoneType"
  | .jbool _ => "bool"
  | .jnum _ => "int"
  | .jstr _ => "str"
  | .jarr _ => "list"
  | .jobj _ => "dict"

/-- The analysis dictionary returned by `analyze_controversy`: the four
fields extracted (or defaulted) from the decoded JSON object.  Field
values are arbitrary JSON values, as in Python, where no further type
checking happens. -/
structure Verdict where
  is_controversial : JVal
  controversy_score : JVal
  reasons : JVal
  topics : JVal

/-- `result.get(key, default)` on the decoded JSON object. -/
def dictGet (fields : List (String × JVal)) (key : String) (dflt : JVal) : JVal :=
  match fields.find? (fun p => p.1 == key) with
  | some p => p.2
  | none => dflt

/-- The default dictionary returned on JSON parse failure
(`extractor.py` lines 77-82). -/
def parseFailureVerdict : Verdict :=
  ⟨.jbool false, .jnum 0, .jarr [.jstr "Failed to parse AI response"], .jarr []⟩

/-- The fence-stripping normalization of `extractor.py` lines 51-60:
strip, drop a leading three-backtick-json marker (7 characters), drop a
leading three-backtick marker (3 characters), drop a trailing
three-backtick marker, strip again. -/
def stripFences (raw : String) : String :=
  let c := raw.trim
  let c := if c.startsWith "```json" then c.drop 7 else c
  let c := if c.startsWith "```" then c.drop 3 else c
  let c := if c.endsWith "```" then c.dropRight 3 else c
  c.trim

/-- One response from the text-generation service, as observed by the
classifier client: a rate-limit error, some content string, or any
other exception (carrying its message). -/
inductive AiResp where
  | rateLimit
  | ok (content : String)
  | err (msg : String)

/-- One attempt of `analyze_controversy` on a non-rate-limited response
(`extractor.py` lines 51-95): strip fences, decode via the `loads`
oracle (where `none` is a raised `JSONDecodeError`, answered by the
parse-failure default), extract the four fields with defaults when the
decoded value is an object, and answer any other exception — including
the attribute error raised by `result.get` on a non-dict decode — with
a default carrying the error text.  `none` is returned exactly on a
rate-limit error, which the caller retries. -/
def classifyResponse (loads : String → Option JVal) : AiResp → Option Verdict
  | .rateLimit => none
  | .err msg =>
      some ⟨.jbool false, .jnum 0, .jarr [.jstr ("Analysis error: " ++ msg)], .jarr []⟩
  | .ok content =>
      match loads (stripFences content) with
      | none => some parseFailureVerdict
      | some (.jobj fields) =>
          some ⟨dictGet fields "is_controversial" (.jbool false),
                dictGet fields "controversy_score" (.jnum 0),
                dictGet fields "reasons" (.jarr []),
                dictGet fields "topics" (.jarr [])⟩
      | some v =>
          some ⟨.jbool false, .jnum 0,
                .jarr [.jstr ("Analysis error: " ++ jtypeName v
                              ++ " object has no attribute get")], .jarr []⟩

/-- `analyze_controversy` (`extractor.py` lines 12-95) run against an
oracle of service responses, one per attempt.  On a rate-limit response
the code sleeps 60 seconds and re-enters the whole function
(`extractor.py` lines 83-87), consuming the next oracle entry.  The
result carries the verdict, the number of attempts made and the seconds
slept; `none` means the finite oracle was exhausted while the code
would still be retrying. -/
def analyze_controversy (loads : String → Option JVal) :
    List AiResp → Option (Verdict × Nat × Nat)
  | [] => none
  | r :: rest =>
      match classifyResponse loads r with
      | some v => some (v, 1, 0)
      | none =>
          (analyze_controversy loads rest).map (fun p => (p.1, p.2.1 + 1, p.2.2 + 60))

/-! ## Aggregator (`main.py`, `analyze_profile`) -/

/-- One entry of the `all_results` / `controversial_tweets` lists
(`main.py` lines 103-111 and 119-127). -/
structure Row where
  tweet_id : Nat
  text : String
  created_at : Option String
  keyword : String
  matched_keywords : List String
  public_metrics : Option Metrics
  analysis : Verdict

/-- The mutable state threaded through the analysis loop of
`analyze_profile`: the seen-id set, the two result lists, and (as the
observable trace of classifier calls) the list of tweet ids whose text
was submitted to the classifier, in submission order. -/
structure AggState where
  analyzed_tweet_ids : List Nat
  all_results : List Row
  controversial_tweets : List Row
  callLog : List Nat

/-- Build one result dictionary for a tweet, a keyword and an analysis
(`main.py` lines 103-111). -/
def mkRow (t : BTweet) (kw : String) (analysis : Verdict) : Row :=
  ⟨t.id, t.text, t.created_at, kw, t.matched_keywords, t.public_metrics, analysis⟩

/-- The body of the per-tweet loop of `analyze_profile` (`main.py` lines
86-144): skip an already-analyzed id; otherwise classify the text once,
emit one row per matched keyword, append one deduplicated entry (keyed
by the first matched keyword, or "unknown") to the controversial list
when the analysis is truthy-flagged, and emit a single "unknown"-keyword
row when the matched-keyword list is empty. -/
def processTweet (classify : String → Verdict) (s : AggState) (t : BTweet) : AggState :=
  if t.id ∈ s.analyzed_tweet_ids then s
  else
    let analysis := classify t.text
    let s1 : AggState :=
      { s with
        analyzed_tweet_ids := t.id :: s.analyzed_tweet_ids,
        callLog := s.callLog ++ [t.id],
        all_results := s.all_results ++
          t.matched_keywords.map (fun kw => mkRow t kw analysis) }
    let s2 : AggState :=
      if truthy analysis.is_controversial then
        { s1 with controversial_tweets := s1.controversial_tweets ++
            [mkRow t (t.matched_keywords.headD "unknown") analysis] }
      else s1
    if t.matched_keywords.isEmpty then
      { s2 with all_results := s2.all_results ++ [mkRow t "unknown" analysis] }
    else s2

/-- The whole analysis loop of `analyze_profile` over the found tweets,
starting from empty accumulators. -/
def runAgg (classify : String → Verdict) (tweets : List BTweet) : AggState :=
  tweets.foldl (processTweet classify) ⟨[], [], [], []⟩

/-- The `summary` sub-dictionary of the report (`main.py` lines
154-158); `non_controversial` is a Python int subtraction, hence `Int`
valued. -/
structure Summary where
  total_analyzed : Nat
  controversial : Nat
  non_controversial : Int

/-- The report dictionary returned by `analyze_profile` (`main.py`
lines 146-159). -/
structure Report where
  username : String
  timestamp : String
  keywords_searched : List String
  total_tweets_found : Nat
  controversial_count : Nat
  tweets : List Row
  controversial_tweets : List Row
  summary : Summary

/-- Assemble the report from the found tweets (`main.py` lines 78 and
146-159); `timestamp` stands for `datetime.now().isoformat()`. -/
def buildReport (username timestamp : String) (keywords : List String)
    (classify : String → Verdict) (tweets : List BTweet) : Report :=
  let s := runAgg classify tweets
  { username := username,
    timestamp := timestamp,
    keywords_searched := keywords,
    total_tweets_found := tweets.length,
    controversial_count := s.controversial_tweets.length,
    tweets := s.all_results,
    controversial_tweets := s.controversial_tweets,
    summary :=
      { total_analyzed := s.all_results.length,
        controversial := s.controversial_tweets.length,
        non_controversial :=
          (s.all_results.length : Int) - (s.controversial_tweets.length : Int) } }

/-- The per-keyword fallback tagging of `main.py` lines 73-74:
`tweet['matched_keywords'] = [keyword]`. -/
def tagKeyword (kw : String) (it : KwItem) : BTweet :=
  ⟨it.id, it.text, it.created_at, it.public_metrics, [kw]⟩

/-- The fallback loop of `main.py` lines 68-76: one
`search_tweets_by_keyword` per keyword, in list order, each returned
item tagged with that keyword; `none` when some per-keyword search
exhausted its oracle. -/
def fallbackSearch (username : String) (perKw : String → List SearchResp) :
    List String → Option (List BTweet)
  | [] => some []
  | kw :: rest =>
      match search_tweets_by_keyword username kw (perKw kw) with
      | .ok items _ _ =>
          match fallbackSearch username perKw rest with
          | some more => some (items.map (tagKeyword kw) ++ more)
          | none => none
      | _ => none

/-- `analyze_profile` (`main.py` lines 37-159): validate the user (exit
when invalid, modelled as `none`), attempt the batch search, fall back
to per-keyword searches when the batch call raises `BadRequest`, then
run the analysis loop and assemble the report.  `batchOracle` answers
the batch search requests and `perKw kw` answers the requests of the
fallback search for `kw`. -/
def analyze_profile (username timestamp : String) (keywords : List String)
    (classify : String → Verdict) (userOk : Bool)
    (batchOracle : List SearchResp) (perKw : String → List SearchResp) :
    Option Report :=
  if !userOk then none
  else
    match search_tweets_by_keywords_batch username keywords batchOracle with
    | .ok tweets _ _ => some (buildReport username timestamp keywords classify tweets)
    | .oracleDry => none
    | .raisedBadRequest =>
        match fallbackSearch username perKw keywords with
        | some tweets => some (buildReport username timestamp keywords classify tweets)
        | none => none

/-! ## Declarative characterizations used in theorem statements

These are not translations of source lines; they are the spec-level
descriptions that the fold-based aggregator is proved to coincide
with. -/

/-- First-occurrence-wins deduplication by id, relative to a set of
already-seen ids. -/
def dedupeFrom (seen : List Nat) : List BTweet → List BTweet
  | [] => []
  | t :: ts =>
      if t.id ∈ seen then dedupeFrom seen ts
      else t :: dedupeFrom (t.id :: seen) ts

/-- First-occurrence-wins deduplication by id. -/
def dedupeById (ts : List BTweet) : List BTweet := dedupeFrom [] ts

/-- The result rows one analyzed tweet contributes to `all_results`: one
row per matched keyword, or a single "unknown" row when no keyword
matched. -/
def rowsOf (classify : String → Verdict) (t : BTweet) : List Row :=
  if t.matched_keywords.isEmpty then [mkRow t "unknown" (classify t.text)]
  else t.matched_keywords.map (fun kw => mkRow t kw (classify t.text))

/-- Whether the classification of a tweet's text is truthy-flagged. -/
def flaggedB (classify : String → Verdict) (t : BTweet) : Bool :=
  truthy (classify t.text).is_controversial

/-- The single deduplicated controversial-list entry of a flagged
tweet. -/
def contrRowOf (classify : String → Verdict) (t : BTweet) : Row :=
  mkRow t (t.matched_keywords.headD "unknown") (classify t.text)

/-- Constant flagged classification used in concrete instantiations. -/
def sampleClassify : String → Verdict :=
  fun _ => ⟨.jbool true, .jnum 5, .jarr [], .jarr []⟩

/-- A duplicate pair: two raw items sharing identifier 1 whose
matched-keyword lists differ, as produced by the per-keyword fallback
search. -/
def sampleTweetA : BTweet := ⟨1, "xx", none, none, ["a"]⟩

/-- The later duplicate occurrence of identifier 1, carrying keyword
match "b". -/
def sampleTweetB : BTweet := ⟨1, "xx", none, none, ["b"]⟩

/-! ## Lemmas about the query builder -/

theorem hasSpecialChars_eq (kw : String) :
    hasSpecialChars kw
      = (kw.contains ' ' || kw.contains '"' || kw.contains squote
          || kw.contains '(' || kw.contains ')') := by
  simp [hasSpecialChars, List.any, Bool.or_assoc]

theorem escapeKeywords_eq_map (keywords : List String) :
    escapeKeywords keywords
      = keywords.map (fun kw =>
          if hasSpecialChars kw then "\"" ++ kw ++ "\"" else kw) := by
  induction keywords with
  | nil => rfl
  | cons k t ih => simp [escapeKeywords, ih]

/-- C6: for every account identifier and every non-empty keyword list,
the batch query builder wraps in double quotes exactly those keywords
containing a space or one of the characters `"` `'` `(` `)` (with no
internal escaping), leaves all other keywords bare, joins them with the
literal separator " OR ", and produces `from:<identifier> (<joined>)`. -/
theorem C6_buildBatchQuery (username : String) (keywords : List String)
    (hne : keywords ≠ []) :
    buildBatchQuery username keywords
      = "from:" ++ username ++ " ("
        ++ String.intercalate " OR "
            (keywords.map (fun kw =>
              if kw.contains ' ' || kw.contains '"' || kw.contains squote
                  || kw.contains '(' || kw.contains ')'
              then "\"" ++ kw ++ "\"" else kw))
        ++ ")" := by
  have h := hne
  rw [buildBatchQuery, escapeKeywords_eq_map]
  congr 1
  · congr 2
    apply List.map_congr_left
    intro kw _
    rw [hasSpecialChars_eq]

theorem C6_witness :
    (["covid hoax", "fraud"] : List String) ≠ []
    ∧ buildBatchQuery "alice" ["covid hoax", "fraud"]
        = "from:" ++ "alice" ++ " ("
          ++ String.intercalate " OR "
              ((["covid hoax", "fraud"] : List String).map (fun kw =>
                if kw.contains ' ' || kw.contains '"' || kw.contains squote
                    || kw.contains '(' || kw.contains ')'
                then "\"" ++ kw ++ "\"" else kw))
          ++ ")" :=
  ⟨by decide, C6_buildBatchQuery "alice" ["covid hoax", "fraud"] (by decide)⟩

/-! ## Lemmas about the keyword matcher -/

theorem subScan_iff (needle : List Char) (hay : List Char) :
    subScan needle hay = true ↔ needle <:+: hay := by
  induction hay with
  | nil => simp [subScan, List.infix_nil, List.isEmpty_iff]
  | cons c t ih =>
      simp [subScan, List.infix_cons_iff, List.isPrefixOf_iff_prefix, ih]

theorem strContainsSub_iff (hay needle : String) :
    strContainsSub hay needle = true ↔ needle.toList <:+: hay.toList :=
  subScan_iff needle.toList hay.toList

theorem matchKeywords_eq_filter (text : String) (keywords : List String) :
    matchKeywords text keywords
      = keywords.filter (fun kw => strContainsSub (pyLower text) (pyLower kw)) := by
  induction keywords with
  | nil => rfl
  | cons k t ih =>
      simp only [matchKeywords, List.filter_cons, ih]

theorem count_filter_eq (p : String → Bool) (l : List String) (a : String) :
    (l.filter p).count a = if p a then l.count a else 0 := by
  induction l with
  | nil => simp
  | cons x t ih =>
      by_cases hx : p x
      · rw [List.filter_cons, if_pos hx, List.count_cons, List.count_cons, ih]
        by_cases hxa : x == a
        · have : p a = true := by
            rw [← (beq_iff_eq (a := x) (b := a)).mp hxa]; exact hx
          simp [this, hxa]
        · simp [hxa]
      · rw [List.filter_cons, if_neg hx, ih, List.count_cons]
        by_cases hxa : x == a
        · have hpa : p a = false := by
            rw [← (beq_iff_eq (a := x) (b := a)).mp hxa]
            exact Bool.not_eq_true _ ▸ (by simpa using hx)
          simp [hpa, hxa]
        · simp [hxa]

/-- C7: for every item text and keyword list, the keyword matcher
returns exactly those keywords that occur case-insensitively as
substrings of the text, in the same relative order as the input keyword
list (it is the filter of the input list), and a keyword appearing
twice in the input list is kept twice. -/
theorem C7_matchKeywords (text : String) (keywords : List String) :
    matchKeywords text keywords
      = keywords.filter (fun kw => strContainsSub (pyLower text) (pyLower kw))
    ∧ (∀ kw, kw ∈ matchKeywords text keywords
        ↔ kw ∈ keywords ∧ (pyLower kw).toList <:+: (pyLower text).toList)
    ∧ (∀ kw, (matchKeywords text keywords).count kw
        = if strContainsSub (pyLower text) (pyLower kw) then keywords.count kw
          else 0) := by
  refine ⟨matchKeywords_eq_filter text keywords, ?_, ?_⟩
  · intro kw
    rw [matchKeywords_eq_filter, List.mem_filter, strContainsSub_iff]
  · intro kw
    rw [matchKeywords_eq_filter, count_filter_eq]

/-! ## Classifier claims -/

/-- C8: for every classifier response payload whose content, after fence
stripping, is not valid JSON (the decode oracle raises, i.e. answers
`none`), `analyze_controversy` returns — it does not raise — the
default verdict with flag false, score 0, reasons
["Failed to parse AI response"] and empty topics, in a single attempt
with no sleeping. -/
theorem C8_parse_failure_default (loads : String → Option JVal)
    (content : String) (rest : List AiResp)
    (h : loads (stripFences content) = none) :
    analyze_controversy loads (.ok content :: rest)
      = some (parseFailureVerdict, 1, 0) := by
  simp [analyze_controversy, classifyResponse, h]

theorem C8_witness :
    (fun _ : String => (none : Option JVal)) (stripFences "not json") = none
    ∧ analyze_controversy (fun _ => none) [.ok "not json"]
        = some (parseFailureVerdict, 1, 0) :=
  ⟨rfl, C8_parse_failure_default (fun _ => none) "not json" [] rfl⟩

/-- C3: evaluation showing the two-strike policy is not implemented: fed
two rate-limit responses and then a success, `analyze_controversy`
makes a third attempt (the `except RateLimitError` handler re-enters
the whole function without any attempt bound, `extractor.py` lines
83-87), sleeping 60 seconds before each re-entry — the claimed maximum
of two attempts per classify call is exceeded. -/
theorem C3_third_attempt :
    analyze_controversy (fun _ => none) [.rateLimit, .rateLimit, .ok "not json"]
      = some (parseFailureVerdict, 3, 120) := rfl

/-! ## Normalization claims -/

/-- C9 counterexample: a raw record carrying no engagement-metrics
object at all is normalized (by either search operation) to an item
whose metrics record is empty — the four counts are not present as
zeros, contradicting the claim for that case. -/
theorem C9_counterexample :
    (normalizeKwTweet "kw" ⟨7, "hello", none, none⟩).public_metrics = none
    ∧ (normalizeBatchTweet ["kw"] ⟨7, "hello", none, none⟩).public_metrics = none
    ∧ (normalizeKwTweet "kw" ⟨7, "hello", none, none⟩).public_metrics
        ≠ some ⟨0, 0, 0, 0⟩ :=
  ⟨rfl, rfl, by decide⟩

/-- C9 (amended): both normalizers pass identifier, text and (possibly
null) creation time through unchanged, and map the metrics object — when
one is present — to the four counts with absent fields defaulted to 0;
when the raw record carries no metrics object, the normalized item
carries an empty metrics record instead of four zero counts. -/
theorem C9_normalization (kw : String) (keywords : List String) (t : RawTweet) :
    (normalizeKwTweet kw t).id = t.id
    ∧ (normalizeKwTweet kw t).text = t.text
    ∧ (normalizeKwTweet kw t).created_at = t.created_at
    ∧ (normalizeBatchTweet keywords t).id = t.id
    ∧ (normalizeBatchTweet keywords t).text = t.text
    ∧ (normalizeBatchTweet keywords t).created_at = t.created_at
    ∧ (normalizeKwTweet kw t).public_metrics
        = t.public_metrics.map (fun m =>
            ⟨m.like_count.getD 0, m.retweet_count.getD 0,
             m.reply_count.getD 0, m.quote_count.getD 0⟩)
    ∧ (normalizeBatchTweet keywords t).public_metrics
        = t.public_metrics.map (fun m =>
            ⟨m.like_count.getD 0, m.retweet_count.getD 0,
             m.reply_count.getD 0, m.quote_count.getD 0⟩) := by
  refine ⟨rfl, rfl, rfl, rfl, rfl, rfl, ?_, ?_⟩ <;>
    · rcases h : t.public_metrics with _ | m <;>
        simp [normalizeKwTweet, normalizeBatchTweet, normalizeMetrics, h]

/-! ## Search-client rate-limit claims -/

/-- C4 counterexample: a rate-limit error at the initial request is not
retried — the client sleeps 60 seconds and returns the empty
accumulated list after a single request, so one rate-limit error
followed by the response that would have succeeded does not yield the
same item sequence as the error-free run. -/
theorem C4_counterexample :
    search_tweets_by_keyword "u" "k"
        [.tooManyRequests, .page [⟨7, "hello", none, none⟩] none]
      = .ok [] 1 60
    ∧ search_tweets_by_keyword "u" "k" [.page [⟨7, "hello", none, none⟩] none]
      = .ok [normalizeKwTweet "k" ⟨7, "hello", none, none⟩] 1 0
    ∧ ([] : List KwItem) ≠ [normalizeKwTweet "k" ⟨7, "hello", none, none⟩] :=
  ⟨rfl, rfl, by decide⟩

/-- C4 (amended): a rate-limit error at a pagination request makes the
client sleep 60 seconds and retry that same request — the run continues
exactly as if the error had not occurred, with one extra issued request
and 60 extra slept seconds — whereas a rate-limit error at the initial
request of either search operation makes the client sleep 60 seconds
and return the empty item list without retrying. -/
theorem C4_rate_limit (α : Type) (norm : RawTweet → α)
    (username keyword : String) (keywords : List String) (tok : String)
    (rest : List SearchResp) (acc : List α) (reqs slept : Nat)
    (rs : List SearchResp) :
    paginate norm (some tok) (.tooManyRequests :: rest) acc reqs slept
      = paginate norm (some tok) rest acc (reqs + 1) (slept + 60)
    ∧ search_tweets_by_keyword username keyword (.tooManyRequests :: rs)
        = .ok [] 1 60
    ∧ search_tweets_by_keywords_batch username keywords (.tooManyRequests :: rs)
        = .ok [] 1 60 :=
  ⟨rfl, rfl, rfl⟩

/-! ## The aggregation loop coincides with its declarative description -/

theorem processTweet_mem (classify : String → Verdict) (s : AggState) (t : BTweet)
    (h : t.id ∈ s.analyzed_tweet_ids) :
    processTweet classify s t = s := by
  simp [processTweet, h]

theorem processTweet_not_mem (classify : String → Verdict) (s : AggState) (t : BTweet)
    (h : t.id ∉ s.analyzed_tweet_ids) :
    processTweet classify s t =
      { analyzed_tweet_ids := t.id :: s.analyzed_tweet_ids,
        all_results := s.all_results ++ rowsOf classify t,
        controversial_tweets := s.controversial_tweets
          ++ (if flaggedB classify t then [contrRowOf classify t] else []),
        callLog := s.callLog ++ [t.id] } := by
  by_cases hf : truthy (classify t.text).is_controversial <;>
    by_cases he : t.matched_keywords.isEmpty <;>
      simp_all [processTweet, rowsOf, flaggedB, contrRowOf, List.isEmpty_iff]

theorem foldAgg_spec (classify : String → Verdict) (ts : List BTweet) (s : AggState) :
    ts.foldl (processTweet classify) s =
      { analyzed_tweet_ids :=
          ((dedupeFrom s.analyzed_tweet_ids ts).map (fun t => t.id)).reverse
            ++ s.analyzed_tweet_ids,
        all_results := s.all_results
          ++ (dedupeFrom s.analyzed_tweet_ids ts).flatMap (rowsOf classify),
        controversial_tweets := s.controversial_tweets
          ++ ((dedupeFrom s.analyzed_tweet_ids ts).filter (flaggedB classify)).map
              (contrRowOf classify),
        callLog := s.callLog
          ++ (dedupeFrom s.analyzed_tweet_ids ts).map (fun t => t.id) } := by
  induction ts generalizing s with
  | nil => simp [dedupeFrom]
  | cons t ts ih =>
      by_cases h : t.id ∈ s.analyzed_tweet_ids
      · rw [List.foldl_cons, processTweet_mem classify s t h, ih]
        simp [dedupeFrom, h]
      · rw [List.foldl_cons, processTweet_not_mem classify s t h, ih]
        by_cases hf : flaggedB classify t <;>
          simp [dedupeFrom, h, hf, List.filter_cons, List.flatMap_cons,
            List.append_assoc]

theorem runAgg_all_results (classify : String → Verdict) (ts : List BTweet) :
    (runAgg classify ts).all_results = (dedupeById ts).flatMap (rowsOf classify) := by
  rw [runAgg, foldAgg_spec]
  rfl

theorem runAgg_controversial (classify : String → Verdict) (ts : List BTweet) :
    (runAgg classify ts).controversial_tweets
      = ((dedupeById ts).filter (flaggedB classify)).map (contrRowOf classify) := by
  rw [runAgg, foldAgg_spec]
  rfl

theorem runAgg_callLog (classify : String → Verdict) (ts : List BTweet) :
    (runAgg classify ts).callLog = (dedupeById ts).map (fun t => t.id) := by
  rw [runAgg, foldAgg_spec]
  rfl

/-! ## Lemmas about rows and deduplication -/

theorem mem_rowsOf (classify : String → Verdict) (t : BTweet) (row : Row)
    (h : row ∈ rowsOf classify t) :
    row.tweet_id = t.id ∧ row.analysis = classify t.text
      ∧ row.matched_keywords = t.matched_keywords := by
  rw [rowsOf] at h
  split at h
  · simp at h
    subst h
    exact ⟨rfl, rfl, rfl⟩
  · obtain ⟨kw, _, hk⟩ := List.mem_map.mp h
    subst hk
    exact ⟨rfl, rfl, rfl⟩

theorem rowsOf_ne_nil (classify : String → Verdict) (t : BTweet) :
    rowsOf classify t ≠ [] := by
  rw [rowsOf]
  split
  · simp
  · next he =>
    simp only [ne_eq, List.map_eq_nil_iff]
    intro hnil
    rw [hnil] at he
    simp at he

theorem rowsOf_length (classify : String → Verdict) (t : BTweet) :
    (rowsOf classify t).length
      = if t.matched_keywords.isEmpty then 1 else t.matched_keywords.length := by
  rw [rowsOf]
  split <;> simp_all

theorem dedupeFrom_filter_id (i : Nat) (ts : List BTweet) :
    ∀ seen : List Nat,
      (dedupeFrom seen ts).filter (fun t => t.id == i)
        = if i ∈ seen then []
          else ((ts.find? (fun t => t.id == i)).toList) := by
  induction ts with
  | nil => intro seen; simp [dedupeFrom]
  | cons t ts ih =>
      intro seen
      by_cases hseen : t.id ∈ seen
      · rw [dedupeFrom, if_pos hseen, ih seen, List.find?_cons]
        by_cases hpt : (t.id == i) = true
        · have : i ∈ seen := (beq_iff_eq.mp hpt) ▸ hseen
          simp [hpt, this]
        · simp [hpt]
      · rw [dedupeFrom, if_neg hseen, List.filter_cons, List.find?_cons]
        by_cases hpt : (t.id == i) = true
        · have hne : i ∉ seen := fun hmem => hseen ((beq_iff_eq.mp hpt) ▸ hmem)
          rw [if_pos hpt, ih (t.id :: seen)]
          have : i ∈ t.id :: seen := by
            rw [← beq_iff_eq.mp hpt]; exact List.mem_cons_self _ _
          simp [hpt, this, hne]
        · rw [if_neg hpt, ih (t.id :: seen)]
          have hiff : (i ∈ t.id :: seen) ↔ (i ∈ seen) := by
            constructor
            · intro hmem
              rcases List.mem_cons.mp hmem with heq | hmem2
              · exact absurd (beq_iff_eq.mpr heq.symm) hpt
              · exact hmem2
            · exact fun hmem => List.mem_cons_of_mem _ hmem
          by_cases hi : i ∈ seen
          · rw [if_pos (hiff.mpr hi), if_pos hi]
          · have hpt2 : (t.id == i) = false := by simpa using hpt
            rw [if_neg (fun hmem => hi (hiff.mp hmem)), if_neg hi, hpt2]

theorem count_map_id (l : List BTweet) (i : Nat) :
    (l.map (fun t => t.id)).count i = (l.filter (fun t => t.id == i)).length := by
  induction l with
  | nil => rfl
  | cons t ts ih =>
      rw [List.map_cons, List.count_cons, List.filter_cons, ih]
      by_cases hpt : (t.id == i) = true <;> simp [hpt]

theorem length_le_flatMap_rows (classify : String → Verdict) (l : List BTweet) :
    l.length ≤ (l.flatMap (rowsOf classify)).length := by
  induction l with
  | nil => simp
  | cons t ts ih =>
      rw [List.flatMap_cons, List.length_append, List.length_cons]
      have h1 : 1 ≤ (rowsOf classify t).length :=
        List.length_pos.mpr (rowsOf_ne_nil classify t)
      omega

/-! ## Aggregator claims -/

/-- C1 counterexample: two raw items share identifier 1; the later
occurrence carries the keyword match "b", but the aggregator skips the
later duplicate entirely, so no emitted result row carries keyword "b"
— the emitted rows are exactly the first occurrence's (keyword "a"),
and the identifier's text is classified once. -/
theorem C1_counterexample :
    sampleTweetA.id = sampleTweetB.id
    ∧ "b" ∈ sampleTweetB.matched_keywords
    ∧ (runAgg sampleClassify [sampleTweetA, sampleTweetB]).all_results.map
        (fun r => r.keyword) = ["a"]
    ∧ (runAgg sampleClassify [sampleTweetA, sampleTweetB]).callLog = [1] := by
  refine ⟨rfl, ?_, ?_, ?_⟩ <;> decide

/-- C1 (amended): when two raw items share an identifier, the aggregator
classifies that identifier's text exactly once — at its first
occurrence — and every emitted result row carrying that identifier
derives from the first occurrence: it references the verdict of that
single classification and carries the first occurrence's
matched-keyword list.  Keyword matches carried only by a later
duplicate occurrence produce no rows. -/
theorem C1_classify_once (classify : String → Verdict) (ts : List BTweet)
    (i : Nat) (t0 : BTweet)
    (hdup : 2 ≤ (ts.map (fun t => t.id)).count i)
    (hfirst : ts.find? (fun t => t.id == i) = some t0) :
    (runAgg classify ts).callLog.count i = 1
    ∧ ∀ row ∈ (runAgg classify ts).all_results, row.tweet_id = i →
        row.analysis = classify t0.text
        ∧ row.matched_keywords = t0.matched_keywords := by
  have hi0 : 0 < (ts.map (fun t => t.id)).count i := by omega
  constructor
  · rw [runAgg_callLog, count_map_id, dedupeById, dedupeFrom_filter_id i ts []]
    simp [hfirst]
  · intro row hrow hid
    rw [runAgg_all_results] at hrow
    obtain ⟨t, ht, hrt⟩ := List.mem_flatMap.mp hrow
    obtain ⟨hid2, hana, hmk⟩ := mem_rowsOf classify t row hrt
    have htid : t.id = i := hid2.symm.trans hid
    have hmemf : t ∈ (dedupeById ts).filter (fun t => t.id == i) :=
      List.mem_filter.mpr ⟨ht, beq_iff_eq.mpr htid⟩
    rw [dedupeById, dedupeFrom_filter_id i ts [],
      if_neg (List.not_mem_nil i), hfirst] at hmemf
    have ht0 : t = t0 := by simpa using hmemf
    subst ht0
    exact ⟨hana, hmk⟩

theorem C1_witness :
    2 ≤ (([sampleTweetA, sampleTweetB].map (fun t => t.id)).count 1)
    ∧ [sampleTweetA, sampleTweetB].find? (fun t => t.id == 1) = some sampleTweetA
    ∧ (runAgg sampleClassify [sampleTweetA, sampleTweetB]).callLog.count 1 = 1 :=
  ⟨by decide, by decide,
    (C1_classify_once sampleClassify [sampleTweetA, sampleTweetB] 1 sampleTweetA
      (by decide) (by decide)).1⟩

/-- C2: the report's flagged count equals the number of distinct (by
identifier, first occurrence winning) items whose verdict is
truthy-flagged, regardless of how many keywords each item matched, and
every item identifier appearing in the flagged row sequence also
appears in the full row sequence. -/
theorem C2_flagged_count (username timestamp : String) (keywords : List String)
    (classify : String → Verdict) (tweets : List BTweet) :
    (buildReport username timestamp keywords classify tweets).controversial_count
      = ((dedupeById tweets).filter (flaggedB classify)).length
    ∧ ∀ i ∈ (buildReport username timestamp keywords classify
            tweets).controversial_tweets.map (fun r => r.tweet_id),
        i ∈ (buildReport username timestamp keywords classify tweets).tweets.map
          (fun r => r.tweet_id) := by
  constructor
  · show (runAgg classify tweets).controversial_tweets.length = _
    rw [runAgg_controversial, List.length_map]
  · intro i hi
    show i ∈ (runAgg classify tweets).all_results.map (fun r => r.tweet_id)
    have hi2 : i ∈ (runAgg classify tweets).controversial_tweets.map
        (fun r => r.tweet_id) := hi
    rw [runAgg_controversial] at hi2
    obtain ⟨r, hr, hri⟩ := List.mem_map.mp hi2
    obtain ⟨t, htf, hrt⟩ := List.mem_map.mp hr
    have ht : t ∈ dedupeById tweets := (List.mem_filter.mp htf).1
    have hti : t.id = i := by rw [← hri, ← hrt]; rfl
    obtain ⟨row, hrow⟩ := List.exists_mem_of_ne_nil _ (rowsOf_ne_nil classify t)
    have hrowid : row.tweet_id = t.id := (mem_rowsOf classify t row hrow).1
    rw [runAgg_all_results]
    exact List.mem_map.mpr
      ⟨row, List.mem_flatMap.mpr ⟨t, ht, hrow⟩, by rw [hrowid, hti]⟩

theorem C2_witness :
    1 ∈ (buildReport "u" "t0" ["a"] sampleClassify
        [sampleTweetA]).controversial_tweets.map (fun r => r.tweet_id)
    ∧ 1 ∈ (buildReport "u" "t0" ["a"] sampleClassify [sampleTweetA]).tweets.map
        (fun r => r.tweet_id) :=
  ⟨by decide,
    (C2_flagged_count "u" "t0" ["a"] sampleClassify [sampleTweetA]).2 1 (by decide)⟩

/-- C10: the summary's total-analyzed field counts result rows — one per
matched keyword per distinct item, one for a distinct item with no
matched keywords — not distinct items; non-controversial equals that
row count minus the distinct-flagged-item count, and is never
negative. -/
theorem C10_summary_counts (username timestamp : String) (keywords : List String)
    (classify : String → Verdict) (tweets : List BTweet) :
    (buildReport username timestamp keywords classify tweets).summary.total_analyzed
      = (buildReport username timestamp keywords classify tweets).tweets.length
    ∧ (buildReport username timestamp keywords classify tweets).summary.total_analyzed
      = ((dedupeById tweets).map (fun t =>
          if t.matched_keywords.isEmpty then 1 else t.matched_keywords.length)).sum
    ∧ (buildReport username timestamp keywords classify tweets).summary.non_controversial
      = ((buildReport username timestamp keywords classify
            tweets).summary.total_analyzed : Int)
        - ((buildReport username timestamp keywords classify
            tweets).summary.controversial : Int)
    ∧ 0 ≤ (buildReport username timestamp keywords classify
          tweets).summary.non_controversial := by
  refine ⟨rfl, ?_, rfl, ?_⟩
  · show (runAgg classify tweets).all_results.length = _
    rw [runAgg_all_results, List.length_flatMap]
    refine congrArg List.sum ?_
    apply List.map_congr_left
    intro t _
    simpa [Function.comp] using rowsOf_length classify t
  · show (0 : Int) ≤ ((runAgg classify tweets).all_results.length : Int)
        - ((runAgg classify tweets).controversial_tweets.length : Int)
    have h1 : (runAgg classify tweets).controversial_tweets.length
        ≤ (dedupeById tweets).length := by
      rw [runAgg_controversial, List.length_map]
      exact List.length_filter_le _ _
    have h2 : (dedupeById tweets).length
        ≤ (runAgg classify tweets).all_results.length := by
      rw [runAgg_all_results]
      exact length_le_flatMap_rows classify (dedupeById tweets)
    omega

/-! ## Batch-failure fallback claim -/

theorem fallbackSearch_ok (username : String) (perKw : String → List SearchResp)
    (items : String → List KwItem) (reqs slept : String → Nat) :
    ∀ kws : List String,
      (∀ kw ∈ kws, search_tweets_by_keyword username kw (perKw kw)
          = .ok (items kw) (reqs kw) (slept kw)) →
      fallbackSearch username perKw kws
        = some (kws.flatMap (fun kw => (items kw).map (tagKeyword kw))) := by
  intro kws
  induction kws with
  | nil => intro _; rfl
  | cons kw rest ih =>
      intro h
      have h1 := h kw (List.mem_cons_self _ _)
      have h2 := ih (fun k hk => h k (List.mem_cons_of_mem _ hk))
      simp only [fallbackSearch, h1, h2, List.flatMap_cons]

/-- C5: a `BadRequest` rejection of the initial batch search request
propagates out of the batch search operation (it is re-raised rather
than swallowed); the aggregator then performs one per-keyword search
per keyword, in keyword-list order, and tags every item returned by the
search for a keyword with that single keyword as its only matched
keyword, analyzing the concatenation of the tagged per-keyword
results. -/
theorem C5_badRequest_fallback (username timestamp : String)
    (keywords : List String) (classify : String → Verdict)
    (rest : List SearchResp) (perKw : String → List SearchResp)
    (items : String → List KwItem) (reqs slept : String → Nat)
    (hok : ∀ kw ∈ keywords, search_tweets_by_keyword username kw (perKw kw)
        = .ok (items kw) (reqs kw) (slept kw)) :
    search_tweets_by_keywords_batch username keywords (.badRequest :: rest)
      = .raisedBadRequest
    ∧ analyze_profile username timestamp keywords classify true
        (.badRequest :: rest) perKw
      = some (buildReport username timestamp keywords classify
          (keywords.flatMap (fun kw => (items kw).map (tagKeyword kw))))
    ∧ ∀ kw ∈ keywords, ∀ it ∈ items kw,
        (tagKeyword kw it).matched_keywords = [kw] := by
  refine ⟨rfl, ?_, fun kw _ it _ => rfl⟩
  have hb : search_tweets_by_keywords_batch username keywords
      (.badRequest :: rest) = .raisedBadRequest := rfl
  have hf := fallbackSearch_ok username perKw items reqs slept keywords hok
  simp only [analyze_profile, hb, hf, Bool.not_true, Bool.false_eq_true,
    if_false]

theorem C5_witness :
    (∀ kw ∈ (["a"] : List String),
        search_tweets_by_keyword "u" kw [.page [⟨7, "hello", none, none⟩] none]
          = .ok [normalizeKwTweet kw ⟨7, "hello", none, none⟩] 1 0)
    ∧ analyze_profile "u" "t0" ["a"] sampleClassify true [.badRequest]
        (fun _ => [.page [⟨7, "hello", none, none⟩] none])
      = some (buildReport "u" "t0" ["a"] sampleClassify
          ((["a"] : List String).flatMap (fun kw =>
            ([normalizeKwTweet kw ⟨7, "hello", none, none⟩]).map (tagKeyword kw)))) :=
  ⟨by decide,
    (C5_badRequest_fallback "u" "t0" ["a"] sampleClassify []
      (fun _ => [.page [⟨7, "hello", none, none⟩] none])
      (fun kw => [normalizeKwTweet kw ⟨7, "hello", none, none⟩])
      (fun _ => 1) (fun _ => 0) (by decide)).2.1⟩
